import Mathlib

/-!
Verification of a wireless-sensor-network discovery-and-TDMA-scheduling
protocol.  The development shallowly embeds two programs:

* `a1.py` (namespace `A1`): a base station (id 0) discovers devices,
  builds a slot schedule, broadcasts it; each scheduled device transmits
  periodically in its slot until the simulation horizon.
* `lab06.py` (namespace `Lab06`): a central node (id 0) repeatedly
  broadcasts discovery requests carrying the still-missing ids until all
  regular nodes have responded.

Simulated time is modelled by `ℚ`; message payloads irrelevant to a
routing decision are kept opaque.
-/

namespace WSN

/-- Destination field of a PDU: the broadcast address or a concrete node id. -/
inductive Dest where
  | broadcast : Dest
  | node : ℕ → Dest
deriving DecidableEq

/-- Routing decision of a MAC layer for a received PDU: hand the PDU to the
node's protocol logic, silently ignore it, or fall back to the default MAC
behaviour (`super().on_receive_pdu`). -/
inductive Route where
  | deliver : Route
  | ignore : Route
  | defaultMac : Route
deriving DecidableEq

/-- A protocol data unit.  `data` is the payload, opaque to MAC dispatch. -/
structure Pdu where
  type : String
  src : ℕ
  dest : Dest
  data : String
deriving DecidableEq

end WSN

namespace A1

/-- Slot duration in seconds (`SLOT_DURATION = 0.1` in the source). -/
def SLOT_DURATION : ℚ := 1 / 10

/-- Delay before scheduled communication starts (`SCHED_START_DELAY = 0.5`). -/
def SCHED_START_DELAY : ℚ := 1 / 2

/-- Total simulation time (`SIM_DURATION = 50`). -/
def SIM_DURATION : ℚ := 50

/-- Maximum random delay before a DEV-HELLO response (`HELLO_TIMEOUT = 0.01`). -/
def HELLO_TIMEOUT : ℚ := 1 / 100

/-- Number of devices in the simulation (`NUM_DEVICES = 10`). -/
def NUM_DEVICES : ℕ := 10

/-- `CustomMacLayer.on_receive_pdu` of `a1.py`: routing decision as a function
of the receiving node's id and the received PDU.  The base station has id 0.
A fall-through (no branch taken) performs no delivery at all (`Route.ignore`). -/
def CustomMacLayer_on_receive_pdu (nodeId : ℕ) (pdu : WSN.Pdu) : WSN.Route :=
  if pdu.type = "BS-HELLO" ∧ pdu.dest = WSN.Dest.broadcast then WSN.Route.deliver
  else if pdu.type = "DEV-HELLO" ∧ nodeId = 0 then WSN.Route.deliver
  else if pdu.type = "SCHED" ∧ pdu.dest = WSN.Dest.broadcast then WSN.Route.deliver
  else if pdu.type = "DATA" then
    if nodeId = 0 ∧ pdu.dest = WSN.Dest.node 0 then WSN.Route.deliver
    else WSN.Route.defaultMac
  else WSN.Route.ignore

/-- The `for idx, device_id in enumerate(...)` loop body of
`BaseStation.create_schedule`, carrying the running slot index. -/
def assign_slots : List ℕ → ℕ → List (ℕ × ℕ)
  | [], _ => []
  | d :: ds, idx => (d, idx) :: assign_slots ds (idx + 1)

/-- `BaseStation.create_schedule`: appends `(device_id, idx)` pairs for the
discovered devices (in discovery order) to the existing schedule, which is
empty at initialisation. -/
def create_schedule (schedule : List (ℕ × ℕ)) (discovered_devices : List ℕ) :
    List (ℕ × ℕ) :=
  schedule ++ assign_slots discovered_devices 0

/-- Payload of a `SCHED` PDU as built by `BaseStation.run`. -/
structure SchedData where
  num_devices : ℕ
  dev_slots : List (ℕ × ℕ)
  start_delay : ℚ
deriving DecidableEq

/-- The schedule-related mutable fields of a `Device`. -/
structure DeviceState where
  slot_number : Option ℕ
  schedule_frame_length : Option ℚ
  start_delay : Option ℚ
deriving DecidableEq

/-- `Device.__init__` sets all three schedule fields to `None`. -/
def DeviceState.init : DeviceState := ⟨none, none, none⟩

/-- Outcome of `Device.process_schedule`: the updated device state, the delay
of the `delayed_exec` timer arming `send_data` (if armed), and whether the
"didn't get a slot" log line was emitted. -/
structure ProcessSchedResult where
  state : DeviceState
  armedTimer : Option ℚ
  loggedNoSlot : Bool
deriving DecidableEq

/-- `Device.process_schedule`: store `start_delay` and the frame length
`num_devices * SLOT_DURATION`, then scan `dev_slots` for the first entry
whose device id equals this device's id; if found, record the slot number and
arm `send_data` after `start_delay + slot_number * SLOT_DURATION`; otherwise
log the absence of a slot and arm nothing. -/
def process_schedule (devId : ℕ) (st : DeviceState) (d : SchedData) :
    ProcessSchedResult :=
  let st1 : DeviceState :=
    { st with
      start_delay := some d.start_delay
      schedule_frame_length := some ((d.num_devices : ℚ) * SLOT_DURATION) }
  match d.dev_slots.find? (fun p => p.1 == devId) with
  | some (_, slot_num) =>
      { state := { st1 with slot_number := some slot_num }
        armedTimer := some (d.start_delay + (slot_num : ℚ) * SLOT_DURATION)
        loggedNoSlot := false }
  | none =>
      { state := st1, armedTimer := none, loggedNoSlot := true }

/-- Whether the k-th firing of the `send_data` chain is armed, for a chain
whose first firing is armed at absolute time `t0` with frame length `F`.
Firing `k + 1` is armed exactly when firing `k` was armed, passed the
`self.now < SIM_DURATION` check (`t0 + k * F < horizon`), and passed the
re-arm check `self.now + schedule_frame_length < SIM_DURATION`. -/
def send_data_armed (t0 F horizon : ℚ) : ℕ → Bool
  | 0 => true
  | k + 1 =>
      send_data_armed t0 F horizon k && decide (t0 + (k : ℚ) * F < horizon)
        && decide (t0 + (k : ℚ) * F + F < horizon)

/-- Whether the `send_data` chain actually transmits a DATA PDU at its k-th
firing time `t0 + k * F`: the firing must be armed and the horizon check
`self.now < SIM_DURATION` must pass. -/
def send_data_transmits (t0 F horizon : ℚ) (k : ℕ) : Bool :=
  send_data_armed t0 F horizon k && decide (t0 + (k : ℚ) * F < horizon)

/-- Transmissions of one schedule cycle for a device: none at all when
`process_schedule` armed no timer, otherwise those of the `send_data` chain
started at `receipt + delay`. -/
def cycle_transmits (armedTimer : Option ℚ) (receipt F horizon : ℚ) (k : ℕ) :
    Bool :=
  match armedTimer with
  | none => false
  | some delay => send_data_transmits (receipt + delay) F horizon k

end A1

namespace Lab06

/-- Number of regular nodes (`NUM_DEVICES = 50`). -/
def NUM_DEVICES : ℕ := 50

/-- Maximum random delay before a HELLO response (`HELLO_TIMEOUT = 0.1`). -/
def HELLO_TIMEOUT : ℚ := 1 / 10

/-- The full device id set `range(1, NUM_DEVICES + 1)` as an ordered list. -/
def full_id_list : List ℕ := List.range' 1 NUM_DEVICES

/-- The discovery bookkeeping of the central node. -/
structure CentralState where
  discovered_ids : List ℕ
  missing_ids : List ℕ
deriving DecidableEq

/-- `CentralNode.__init__`: nothing discovered, every node initially missing. -/
def CentralState.init : CentralState :=
  { discovered_ids := [], missing_ids := full_id_list }

/-- `CentralNode.on_receive_pdu`: append the source of a HELLO PDU to
`discovered_ids` unless it is already there; any other PDU (or a repeated
HELLO) leaves the state unchanged. -/
def CentralNode_on_receive_pdu (st : CentralState) (pdu : WSN.Pdu) :
    CentralState :=
  if pdu.type = "HELLO" ∧ pdu.src ∉ st.discovered_ids then
    { st with discovered_ids := st.discovered_ids ++ [pdu.src] }
  else st

/-- The window-end recomputation in `CentralNode.run`:
`missing_ids = [i for i in range(1, NUM_DEVICES + 1) if i not in discovered_ids]`. -/
def update_missing (discovered : List ℕ) : List ℕ :=
  full_id_list.filter (fun i => decide (i ∉ discovered))

/-- All responses delivered during one collection window, folded through
`CentralNode.on_receive_pdu`. -/
def collect (st : CentralState) (responses : List WSN.Pdu) : CentralState :=
  responses.foldl CentralNode_on_receive_pdu st

/-- One full iteration of the body of `CentralNode.run`'s while-loop, given
the responses arriving during this round's window: collect the responses,
then recompute `missing_ids` from `discovered_ids`. -/
def run_round (st : CentralState) (responses : List WSN.Pdu) : CentralState :=
  let st1 := collect st responses
  { st1 with missing_ids := update_missing st1.discovered_ids }

/-- The `while self.missing_ids:` loop of `CentralNode.run`.  The list
`rounds` supplies, for each round the simulation horizon still allows, the
responses delivered during that round; its length is the external time
budget.  Returns the list of DISCOVERY broadcast payloads (each broadcast
carries `self.missing_ids`) and the final state. -/
def run_loop : CentralState → List (List WSN.Pdu) → List (List ℕ) × CentralState
  | st, [] => ([], st)
  | st, rs :: rest =>
      if st.missing_ids = [] then ([], st)
      else
        let p := run_loop (run_round st rs) rest
        (st.missing_ids :: p.1, p.2)

/-- `RegularNode.on_receive_pdu`, DISCOVERY branch: given the current
`responded` flag, the request payload (list of missing ids), and the jitter
value produced by `random.uniform(0, HELLO_TIMEOUT)`, return the new
`responded` flag and the delay of the scheduled `send_hello` call (`none`
when no response is scheduled). -/
def RegularNode_on_discovery (devId : ℕ) (responded : Bool) (payload : List ℕ)
    (jitter : ℚ) : Bool × Option ℚ :=
  if responded = false ∨ devId ∈ payload then (true, some jitter)
  else (responded, none)

/-- The `responded` flag of a device after it has processed the given
sequence of DISCOVERY payloads (initially `False`). -/
def responded_after (devId : ℕ) (payloads : List (List ℕ)) : Bool :=
  payloads.foldl (fun r p => (RegularNode_on_discovery devId r p 0).1) false

/-- `CustomMacLayer.on_receive_pdu` of `lab06.py`: DISCOVERY and HELLO PDUs
go to the node's protocol logic, everything else falls back to the default
MAC behaviour. -/
def CustomMacLayer_on_receive_pdu (pdu : WSN.Pdu) : WSN.Route :=
  if pdu.type = "DISCOVERY" ∨ pdu.type = "HELLO" then WSN.Route.deliver
  else WSN.Route.defaultMac

end Lab06

namespace A1

/-- If the k-th firing time is still below the horizon, the k-th firing of
the `send_data` chain is armed (frame length nonnegative). -/
theorem send_data_armed_of_lt (t0 F horizon : ℚ) (hF : 0 ≤ F) :
    ∀ k : ℕ, t0 + (k : ℚ) * F < horizon → send_data_armed t0 F horizon k = true := by
  intro k
  induction k with
  | zero => intro _; rfl
  | succ n ih =>
      intro h
      have h' : t0 + ((n : ℚ) + 1) * F < horizon := by push_cast at h; exact h
      have e : t0 + ((n : ℚ) + 1) * F = t0 + (n : ℚ) * F + F := by ring
      have h1 : t0 + (n : ℚ) * F + F < horizon := by rw [e] at h'; exact h'
      have h0 : t0 + (n : ℚ) * F < horizon := by linarith
      simp [send_data_armed, ih h0, h0, h1]

/-- The `send_data` chain transmits at its k-th firing time exactly when that
time is below the horizon. -/
theorem send_data_transmits_iff (t0 F horizon : ℚ) (hF : 0 ≤ F) (k : ℕ) :
    send_data_transmits t0 F horizon k = true ↔ t0 + (k : ℚ) * F < horizon := by
  constructor
  · intro h
    simp only [send_data_transmits, Bool.and_eq_true, decide_eq_true_eq] at h
    exact h.2
  · intro h
    simp [send_data_transmits, send_data_armed_of_lt t0 F horizon hF k h, h]

/-- Once the horizon check fails at firing k, firing k + 1 is not armed. -/
theorem send_data_armed_stop (t0 F horizon : ℚ) (k : ℕ)
    (h : ¬ t0 + (k : ℚ) * F < horizon) :
    send_data_armed t0 F horizon (k + 1) = false := by
  simp [send_data_armed, h]

/-- Entry-wise content of `assign_slots`: the i-th assignment pairs the i-th
device with slot `j + i`, where `j` is the starting index. -/
theorem assign_slots_getElem (l : List ℕ) :
    ∀ i j : ℕ, (assign_slots l j)[i]? = l[i]?.map (fun d => (d, j + i)) := by
  induction l with
  | nil => intro i j; simp [assign_slots]
  | cons d ds ih =>
      intro i j
      cases i with
      | zero => simp [assign_slots]
      | succ n =>
          have h : j + 1 + n = j + (n + 1) := by omega
          simp [assign_slots, ih n (j + 1), h]

/-- The slot indices produced by `assign_slots` starting at `j` are the
contiguous range of length `l.length` starting at `j`. -/
theorem assign_slots_map_snd (l : List ℕ) :
    ∀ j : ℕ, (assign_slots l j).map Prod.snd = List.range' j l.length := by
  induction l with
  | nil => intro j; simp [assign_slots]
  | cons d ds ih => intro j; simp [assign_slots, ih (j + 1), List.range'_succ]

end A1

/-- Claim C1: a device that finds its own id in a received schedule's slot
assignments computes the frame length `num_devices * SLOT_DURATION`, arms its
first transmission `start_delay + slot * SLOT_DURATION` after schedule
receipt, and the resulting `send_data` chain transmits exactly at the times
`receipt + start_delay + slot * SLOT_DURATION + k * frameLength` that are
strictly below `SIM_DURATION` (and never at or after it); the re-arming chain
stops as soon as the horizon check fails. -/
theorem a1_assigned_slot_transmit_times (devId : ℕ) (st : A1.DeviceState)
    (d : A1.SchedData) (entry : ℕ × ℕ)
    (hfind : d.dev_slots.find? (fun p => p.1 == devId) = some entry)
    (receipt : ℚ) :
    (A1.process_schedule devId st d).armedTimer
        = some (d.start_delay + (entry.2 : ℚ) * A1.SLOT_DURATION) ∧
    (A1.process_schedule devId st d).state.schedule_frame_length
        = some ((d.num_devices : ℚ) * A1.SLOT_DURATION) ∧
    (∀ k : ℕ,
      A1.send_data_transmits
          (receipt + d.start_delay + (entry.2 : ℚ) * A1.SLOT_DURATION)
          ((d.num_devices : ℚ) * A1.SLOT_DURATION) A1.SIM_DURATION k = true
        ↔ receipt + d.start_delay + (entry.2 : ℚ) * A1.SLOT_DURATION
            + (k : ℚ) * ((d.num_devices : ℚ) * A1.SLOT_DURATION)
            < A1.SIM_DURATION) ∧
    (∀ k : ℕ,
      ¬ receipt + d.start_delay + (entry.2 : ℚ) * A1.SLOT_DURATION
            + (k : ℚ) * ((d.num_devices : ℚ) * A1.SLOT_DURATION)
            < A1.SIM_DURATION →
      A1.send_data_armed
          (receipt + d.start_delay + (entry.2 : ℚ) * A1.SLOT_DURATION)
          ((d.num_devices : ℚ) * A1.SLOT_DURATION) A1.SIM_DURATION (k + 1)
        = false) := by
  obtain ⟨eid, slot⟩ := entry
  have hF : (0 : ℚ) ≤ (d.num_devices : ℚ) * A1.SLOT_DURATION :=
    mul_nonneg (Nat.cast_nonneg _) (by norm_num [A1.SLOT_DURATION])
  refine ⟨?_, ?_, ?_, ?_⟩
  · simp [A1.process_schedule, hfind]
  · simp [A1.process_schedule, hfind]
  · intro k
    exact A1.send_data_transmits_iff _ _ _ hF k
  · intro k h
    exact A1.send_data_armed_stop _ _ _ k h

/-- Concrete instance of `a1_assigned_slot_transmit_times`: device 3 holds
slot 0 of a two-slot schedule received at time 6 with start delay 1/2, and
its sixth firing (k = 5) transmits. -/
theorem a1_assigned_slot_transmit_times_witness :
    (A1.process_schedule 3 A1.DeviceState.init
          ⟨2, [(3, 0), (4, 1)], 1 / 2⟩).armedTimer
        = some ((1 / 2 : ℚ) + ((0 : ℕ) : ℚ) * A1.SLOT_DURATION) ∧
    A1.send_data_transmits (6 + (1 / 2 : ℚ) + ((0 : ℕ) : ℚ) * A1.SLOT_DURATION)
        (((2 : ℕ) : ℚ) * A1.SLOT_DURATION) A1.SIM_DURATION 5 = true :=
  ⟨(a1_assigned_slot_transmit_times 3 A1.DeviceState.init
      ⟨2, [(3, 0), (4, 1)], 1 / 2⟩ (3, 0) rfl 6).1,
   ((a1_assigned_slot_transmit_times 3 A1.DeviceState.init
      ⟨2, [(3, 0), (4, 1)], 1 / 2⟩ (3, 0) rfl 6).2.2.1 5).mpr
     (by norm_num [A1.SLOT_DURATION, A1.SIM_DURATION])⟩

/-- Claim C2: `create_schedule` (from the empty initial schedule) assigns the
i-th discovered device the slot i, and the assigned slot indices are exactly
the contiguous range `[0, len(discovered))`, in particular pairwise distinct. -/
theorem a1_create_schedule_assignments (discovered : List ℕ) :
    (∀ i : ℕ, (A1.create_schedule [] discovered)[i]?
        = discovered[i]?.map (fun d => (d, i))) ∧
    (A1.create_schedule [] discovered).map Prod.snd
        = List.range discovered.length ∧
    ((A1.create_schedule [] discovered).map Prod.snd).Nodup := by
  have h2 : (A1.create_schedule [] discovered).map Prod.snd
      = List.range discovered.length := by
    simp [A1.create_schedule, A1.assign_slots_map_snd, List.range_eq_range']
  refine ⟨?_, h2, ?_⟩
  · intro i
    have h := A1.assign_slots_getElem discovered i 0
    simpa [A1.create_schedule] using h
  · rw [h2]
    exact List.nodup_range _

namespace A1

/-- If a device id occurs in none of the slot-assignment pairs, the scan of
`process_schedule` finds no entry. -/
theorem find_slot_none (devId : ℕ) (l : List (ℕ × ℕ))
    (habs : devId ∉ l.map Prod.fst) :
    l.find? (fun p => p.1 == devId) = none := by
  rw [List.find?_eq_none]
  intro x hx
  simp only [beq_iff_eq]
  intro hc
  exact habs (hc ▸ List.mem_map_of_mem Prod.fst hx)

end A1

/-- Claim C3: the MAC dispatch of `a1.py` delivers broadcast BS-HELLO and
broadcast SCHED messages on every node, delivers DEV-HELLO exactly on the
base station (id 0), delivers DATA exactly on the base station when the
destination is its id, and otherwise forwards DATA to the default MAC. -/
theorem a1_mac_dispatch_rules (n src : ℕ) (dest : WSN.Dest) (payload : String) :
    A1.CustomMacLayer_on_receive_pdu n
        ⟨"BS-HELLO", src, WSN.Dest.broadcast, payload⟩ = WSN.Route.deliver ∧
    A1.CustomMacLayer_on_receive_pdu n
        ⟨"SCHED", src, WSN.Dest.broadcast, payload⟩ = WSN.Route.deliver ∧
    (A1.CustomMacLayer_on_receive_pdu n ⟨"DEV-HELLO", src, dest, payload⟩
        = WSN.Route.deliver ↔ n = 0) ∧
    (A1.CustomMacLayer_on_receive_pdu n ⟨"DATA", src, dest, payload⟩
        = WSN.Route.deliver ↔ n = 0 ∧ dest = WSN.Dest.node 0) ∧
    (¬(n = 0 ∧ dest = WSN.Dest.node 0) →
      A1.CustomMacLayer_on_receive_pdu n ⟨"DATA", src, dest, payload⟩
        = WSN.Route.defaultMac) := by
  refine ⟨?_, ?_, ?_, ?_, ?_⟩
  · simp [A1.CustomMacLayer_on_receive_pdu]
  · simp [A1.CustomMacLayer_on_receive_pdu]
  · by_cases h : n = 0 <;> simp [A1.CustomMacLayer_on_receive_pdu, h]
  · by_cases h : n = 0 <;> by_cases hd : dest = WSN.Dest.node 0 <;>
      simp [A1.CustomMacLayer_on_receive_pdu, h, hd]
  · intro h
    simp [A1.CustomMacLayer_on_receive_pdu, h]

/-- Concrete instance of `a1_mac_dispatch_rules`: a DATA PDU for the base
station arriving at node 7 goes to the default MAC. -/
theorem a1_mac_dispatch_rules_witness :
    A1.CustomMacLayer_on_receive_pdu 7 ⟨"DATA", 3, WSN.Dest.node 0, "x"⟩
      = WSN.Route.defaultMac :=
  (a1_mac_dispatch_rules 7 3 (WSN.Dest.node 0) "x").2.2.2.2 (by decide)

/-- Claim C4: a device whose id is absent from the received slot assignments
logs the absence, arms no transmission timer, and contributes no
transmissions to the cycle. -/
theorem a1_no_slot_silent_cycle (devId : ℕ) (st : A1.DeviceState)
    (d : A1.SchedData) (habs : devId ∉ d.dev_slots.map Prod.fst) :
    (A1.process_schedule devId st d).loggedNoSlot = true ∧
    (A1.process_schedule devId st d).armedTimer = none ∧
    (∀ (receipt F : ℚ) (k : ℕ),
      A1.cycle_transmits (A1.process_schedule devId st d).armedTimer
        receipt F A1.SIM_DURATION k = false) := by
  have hnone := A1.find_slot_none devId d.dev_slots habs
  refine ⟨?_, ?_, ?_⟩
  · simp [A1.process_schedule, hnone]
  · simp [A1.process_schedule, hnone]
  · intro receipt F k
    simp [A1.process_schedule, hnone, A1.cycle_transmits]

/-- Concrete instance of `a1_no_slot_silent_cycle`: device 5 is absent from
the schedule `[(3, 0), (4, 1)]`. -/
theorem a1_no_slot_silent_cycle_witness :
    (A1.process_schedule 5 A1.DeviceState.init
        ⟨2, [(3, 0), (4, 1)], 1 / 2⟩).loggedNoSlot = true ∧
    (A1.process_schedule 5 A1.DeviceState.init
        ⟨2, [(3, 0), (4, 1)], 1 / 2⟩).armedTimer = none :=
  ⟨(a1_no_slot_silent_cycle 5 A1.DeviceState.init ⟨2, [(3, 0), (4, 1)], 1 / 2⟩
      (by decide)).1,
   (a1_no_slot_silent_cycle 5 A1.DeviceState.init ⟨2, [(3, 0), (4, 1)], 1 / 2⟩
      (by decide)).2.1⟩

/-- Claim C10: on a schedule that does not list the device, `slot_number` is
left unchanged and no timer is armed, but `start_delay` and
`schedule_frame_length` are still overwritten from the message's
`start_delay` and `num_devices`. -/
theorem a1_no_slot_frame_effects (devId : ℕ) (st : A1.DeviceState)
    (d : A1.SchedData) (habs : devId ∉ d.dev_slots.map Prod.fst) :
    (A1.process_schedule devId st d).state.slot_number = st.slot_number ∧
    (A1.process_schedule devId st d).state.start_delay = some d.start_delay ∧
    (A1.process_schedule devId st d).state.schedule_frame_length
        = some ((d.num_devices : ℚ) * A1.SLOT_DURATION) ∧
    (A1.process_schedule devId st d).armedTimer = none := by
  have hnone := A1.find_slot_none devId d.dev_slots habs
  refine ⟨?_, ?_, ?_, ?_⟩ <;> simp [A1.process_schedule, hnone]

/-- Concrete instance of `a1_no_slot_frame_effects`: device 5, which already
held slot 7 from an earlier cycle, keeps it while the timing fields are
overwritten. -/
theorem a1_no_slot_frame_effects_witness :
    (A1.process_schedule 5 ⟨some 7, none, none⟩
        ⟨2, [(3, 0), (4, 1)], 1 / 2⟩).state.slot_number = some 7 ∧
    (A1.process_schedule 5 ⟨some 7, none, none⟩
        ⟨2, [(3, 0), (4, 1)], 1 / 2⟩).state.start_delay = some (1 / 2) :=
  ⟨(a1_no_slot_frame_effects 5 ⟨some 7, none, none⟩
      ⟨2, [(3, 0), (4, 1)], 1 / 2⟩ (by decide)).1,
   (a1_no_slot_frame_effects 5 ⟨some 7, none, none⟩
      ⟨2, [(3, 0), (4, 1)], 1 / 2⟩ (by decide)).2.1⟩

/-- Claim C9: both MAC dispatch policies are total functions into the three
routing outcomes and depend only on the message type, destination and the
receiving node's id, never on the payload: two PDUs agreeing in type and
destination are routed identically. -/
theorem mac_dispatch_total_deterministic (n : ℕ) (p q : WSN.Pdu)
    (ht : p.type = q.type) (hd : p.dest = q.dest) :
    A1.CustomMacLayer_on_receive_pdu n p = A1.CustomMacLayer_on_receive_pdu n q ∧
    Lab06.CustomMacLayer_on_receive_pdu p = Lab06.CustomMacLayer_on_receive_pdu q ∧
    (A1.CustomMacLayer_on_receive_pdu n p = WSN.Route.deliver ∨
     A1.CustomMacLayer_on_receive_pdu n p = WSN.Route.ignore ∨
     A1.CustomMacLayer_on_receive_pdu n p = WSN.Route.defaultMac) ∧
    (Lab06.CustomMacLayer_on_receive_pdu p = WSN.Route.deliver ∨
     Lab06.CustomMacLayer_on_receive_pdu p = WSN.Route.defaultMac) := by
  refine ⟨?_, ?_, ?_, ?_⟩
  · simp only [A1.CustomMacLayer_on_receive_pdu, ht, hd]
  · simp only [Lab06.CustomMacLayer_on_receive_pdu, ht]
  · unfold A1.CustomMacLayer_on_receive_pdu
    split_ifs <;> simp
  · unfold Lab06.CustomMacLayer_on_receive_pdu
    split_ifs <;> simp

/-- Concrete instance of `mac_dispatch_total_deterministic`: two DATA PDUs
with different payloads and sources are routed identically at the base
station. -/
theorem mac_dispatch_total_deterministic_witness :
    A1.CustomMacLayer_on_receive_pdu 0 ⟨"DATA", 1, WSN.Dest.node 0, "abc"⟩
      = A1.CustomMacLayer_on_receive_pdu 0 ⟨"DATA", 9, WSN.Dest.node 0, "xyz"⟩ :=
  (mac_dispatch_total_deterministic 0 ⟨"DATA", 1, WSN.Dest.node 0, "abc"⟩
    ⟨"DATA", 9, WSN.Dest.node 0, "xyz"⟩ rfl rfl).1

namespace Lab06

/-- The discovered list of a completed round is that produced by collecting
the round's responses. -/
theorem run_round_discovered (st : CentralState) (responses : List WSN.Pdu) :
    (run_round st responses).discovered_ids
      = (collect st responses).discovered_ids := rfl

/-- The missing list of a completed round is the window-end recomputation
from the collected discovered list. -/
theorem run_round_missing (st : CentralState) (responses : List WSN.Pdu) :
    (run_round st responses).missing_ids
      = update_missing (collect st responses).discovered_ids := rfl

/-- `CentralNode.on_receive_pdu` only ever adds the PDU's source to the
discovered list. -/
theorem on_receive_discovered_subset (st : CentralState) (pdu : WSN.Pdu)
    (S : List ℕ) (h1 : ∀ x ∈ st.discovered_ids, x ∈ S) (h2 : pdu.src ∈ S) :
    ∀ x ∈ (CentralNode_on_receive_pdu st pdu).discovered_ids, x ∈ S := by
  intro x hx
  by_cases hc : pdu.type = "HELLO" ∧ pdu.src ∉ st.discovered_ids
  · simp only [CentralNode_on_receive_pdu, if_pos hc] at hx
    simp only [List.mem_append, List.mem_singleton] at hx
    rcases hx with hx | hx
    · exact h1 x hx
    · exact hx ▸ h2
  · simp only [CentralNode_on_receive_pdu, if_neg hc] at hx
    exact h1 x hx

/-- Collecting a window of responses keeps the discovered list inside any id
domain containing the previous discovered list and all response sources. -/
theorem collect_discovered_subset (responses : List WSN.Pdu) :
    ∀ (st : CentralState) (S : List ℕ),
      (∀ x ∈ st.discovered_ids, x ∈ S) → (∀ p ∈ responses, p.src ∈ S) →
      ∀ x ∈ (collect st responses).discovered_ids, x ∈ S := by
  induction responses with
  | nil => intro st S h1 _ x hx; exact h1 x hx
  | cons p ps ih =>
      intro st S h1 h2 x hx
      have hp : p.src ∈ S := h2 p (by simp)
      have h1' := on_receive_discovered_subset st p S h1 hp
      exact ih (CentralNode_on_receive_pdu st p) S h1'
        (fun q hq => h2 q (by simp [hq])) x hx

/-- The while-loop either consumes its whole external budget of rounds or
ends in a state with no missing ids. -/
theorem run_loop_budget :
    ∀ (rounds : List (List WSN.Pdu)) (st : CentralState),
      (run_loop st rounds).1.length = rounds.length ∨
      (run_loop st rounds).2.missing_ids = [] := by
  intro rounds
  induction rounds with
  | nil => intro st; left; rfl
  | cons rs rest ih =>
      intro st
      by_cases h : st.missing_ids = []
      · right; simp [run_loop, h]
      · rcases ih (run_round st rs) with h1 | h2
        · left; simp [run_loop, h, h1]
        · right; simp [run_loop, h, h2]

/-- A regular node that has handled any DISCOVERY request has its
`responded` flag set. -/
theorem on_discovery_fst_true (devId : ℕ) (payload : List ℕ) (j : ℚ) :
    (RegularNode_on_discovery devId true payload j).1 = true := by
  by_cases hmem : devId ∈ payload <;> simp [RegularNode_on_discovery, hmem]

/-- Folding further DISCOVERY payloads never clears the `responded` flag. -/
theorem foldl_responded_true (devId : ℕ) :
    ∀ ps : List (List ℕ),
      ps.foldl (fun r p => (RegularNode_on_discovery devId r p 0).1) true
        = true := by
  intro ps
  induction ps with
  | nil => rfl
  | cons p ps ih =>
      rw [List.foldl_cons, on_discovery_fst_true devId p 0]
      exact ih

/-- After at least one DISCOVERY request, a regular node's `responded` flag
is set (the first request always triggers a response). -/
theorem responded_after_of_ne_nil (devId : ℕ) (l : List (List ℕ))
    (h : l ≠ []) : responded_after devId l = true := by
  cases l with
  | nil => exact absurd rfl h
  | cons p ps =>
      show (p :: ps).foldl _ false = true
      rw [List.foldl_cons]
      have hfirst : (RegularNode_on_discovery devId false p 0).1 = true := by
        simp [RegularNode_on_discovery]
      rw [hfirst]
      exact foldl_responded_true devId ps

end Lab06

/-- Claim C5: a HELLO from a not-yet-discovered source is appended to the
discovered list and the id is absent from the missing list recomputed at
window end; a HELLO from an already-discovered source changes nothing. -/
theorem lab06_response_updates_sets (st : Lab06.CentralState) (src : ℕ)
    (dest : WSN.Dest) (payload : String) :
    (src ∉ st.discovered_ids →
      src ∈ (Lab06.CentralNode_on_receive_pdu st
          ⟨"HELLO", src, dest, payload⟩).discovered_ids ∧
      src ∉ Lab06.update_missing (Lab06.CentralNode_on_receive_pdu st
          ⟨"HELLO", src, dest, payload⟩).discovered_ids) ∧
    (src ∈ st.discovered_ids →
      Lab06.CentralNode_on_receive_pdu st ⟨"HELLO", src, dest, payload⟩ = st) := by
  constructor
  · intro h
    have hmem : src ∈ (Lab06.CentralNode_on_receive_pdu st
        ⟨"HELLO", src, dest, payload⟩).discovered_ids := by
      simp [Lab06.CentralNode_on_receive_pdu, h]
    refine ⟨hmem, ?_⟩
    intro hcontra
    rw [Lab06.update_missing, List.mem_filter] at hcontra
    have hnot : src ∉ (Lab06.CentralNode_on_receive_pdu st
        ⟨"HELLO", src, dest, payload⟩).discovered_ids := by
      simpa using hcontra.2
    exact hnot hmem
  · intro h
    simp [Lab06.CentralNode_on_receive_pdu, h]

/-- Concrete instance of `lab06_response_updates_sets`: node 7 is new and
gets discovered; node 2 is already discovered and nothing changes. -/
theorem lab06_response_updates_sets_witness :
    (7 ∈ (Lab06.CentralNode_on_receive_pdu ⟨[2], Lab06.full_id_list⟩
        ⟨"HELLO", 7, WSN.Dest.node 0, "HELLO"⟩).discovered_ids ∧
      7 ∉ Lab06.update_missing (Lab06.CentralNode_on_receive_pdu
        ⟨[2], Lab06.full_id_list⟩
        ⟨"HELLO", 7, WSN.Dest.node 0, "HELLO"⟩).discovered_ids) ∧
    Lab06.CentralNode_on_receive_pdu ⟨[2], Lab06.full_id_list⟩
        ⟨"HELLO", 2, WSN.Dest.node 0, "HELLO"⟩ = ⟨[2], Lab06.full_id_list⟩ :=
  ⟨(lab06_response_updates_sets ⟨[2], Lab06.full_id_list⟩ 7
      (WSN.Dest.node 0) "HELLO").1 (by decide),
   (lab06_response_updates_sets ⟨[2], Lab06.full_id_list⟩ 2
      (WSN.Dest.node 0) "HELLO").2 (by decide)⟩

/-- Claim C6: at the end of a completed discovery round whose discovered ids
all lie in the full device set, the discovered and missing lists are disjoint
and together cover exactly the full device set `{1, ..., NUM_DEVICES}`. -/
theorem lab06_round_partition_invariant (st : Lab06.CentralState)
    (responses : List WSN.Pdu)
    (h1 : ∀ x ∈ st.discovered_ids, x ∈ Lab06.full_id_list)
    (h2 : ∀ p ∈ responses, p.src ∈ Lab06.full_id_list) :
    (∀ i : ℕ, ¬(i ∈ (Lab06.run_round st responses).discovered_ids ∧
        i ∈ (Lab06.run_round st responses).missing_ids)) ∧
    (∀ i : ℕ, (i ∈ (Lab06.run_round st responses).discovered_ids ∨
        i ∈ (Lab06.run_round st responses).missing_ids)
      ↔ i ∈ Lab06.full_id_list) := by
  have hsub := Lab06.collect_discovered_subset responses st Lab06.full_id_list h1 h2
  constructor
  · rintro i ⟨hd, hm⟩
    rw [Lab06.run_round_missing, Lab06.update_missing, List.mem_filter] at hm
    rw [Lab06.run_round_discovered] at hd
    have hnot : i ∉ (Lab06.collect st responses).discovered_ids := by
      simpa using hm.2
    exact hnot hd
  · intro i
    rw [Lab06.run_round_discovered, Lab06.run_round_missing]
    constructor
    · rintro (hd | hm)
      · exact hsub i hd
      · rw [Lab06.update_missing, List.mem_filter] at hm
        exact hm.1
    · intro hfull
      by_cases hd : i ∈ (Lab06.collect st responses).discovered_ids
      · exact Or.inl hd
      · refine Or.inr ?_
        rw [Lab06.update_missing, List.mem_filter]
        exact ⟨hfull, by simpa using hd⟩

/-- Concrete instance of `lab06_round_partition_invariant`: one round from
the initial state in which only node 4 responds. -/
theorem lab06_round_partition_invariant_witness :
    ¬(4 ∈ (Lab06.run_round Lab06.CentralState.init
          [⟨"HELLO", 4, WSN.Dest.node 0, "HELLO"⟩]).discovered_ids ∧
      4 ∈ (Lab06.run_round Lab06.CentralState.init
          [⟨"HELLO", 4, WSN.Dest.node 0, "HELLO"⟩]).missing_ids) ∧
    ((4 ∈ (Lab06.run_round Lab06.CentralState.init
          [⟨"HELLO", 4, WSN.Dest.node 0, "HELLO"⟩]).discovered_ids ∨
      4 ∈ (Lab06.run_round Lab06.CentralState.init
          [⟨"HELLO", 4, WSN.Dest.node 0, "HELLO"⟩]).missing_ids)
      ↔ 4 ∈ Lab06.full_id_list) :=
  ⟨(lab06_round_partition_invariant Lab06.CentralState.init
      [⟨"HELLO", 4, WSN.Dest.node 0, "HELLO"⟩] (by decide) (by decide)).1 4,
   (lab06_round_partition_invariant Lab06.CentralState.init
      [⟨"HELLO", 4, WSN.Dest.node 0, "HELLO"⟩] (by decide) (by decide)).2 4⟩

/-- Claim C7: the retry loop broadcasts, on every round entered with a
non-empty missing list, exactly the current missing ids, stops immediately
when the missing list is empty, and otherwise runs on; over any external
budget of rounds it either consumes the whole budget or ends converged with
no missing ids. -/
theorem lab06_retry_loop (st : Lab06.CentralState) (rs : List WSN.Pdu)
    (rest : List (List WSN.Pdu)) (rounds : List (List WSN.Pdu)) :
    Lab06.run_loop st [] = ([], st) ∧
    (st.missing_ids = [] → Lab06.run_loop st (rs :: rest) = ([], st)) ∧
    (st.missing_ids ≠ [] →
      Lab06.run_loop st (rs :: rest)
        = (st.missing_ids :: (Lab06.run_loop (Lab06.run_round st rs) rest).1,
           (Lab06.run_loop (Lab06.run_round st rs) rest).2)) ∧
    ((Lab06.run_loop st rounds).1.length = rounds.length ∨
      (Lab06.run_loop st rounds).2.missing_ids = []) := by
  refine ⟨rfl, ?_, ?_, Lab06.run_loop_budget rounds st⟩
  · intro h; simp [Lab06.run_loop, h]
  · intro h; simp [Lab06.run_loop, h]

/-- Concrete instance of `lab06_retry_loop`: with nodes 2 still missing, the
loop broadcasts exactly `[2]` and continues into the next round. -/
theorem lab06_retry_loop_witness :
    Lab06.run_loop ⟨[], [2]⟩ [[]]
      = ([[2]], Lab06.run_round ⟨[], [2]⟩ []) :=
  (lab06_retry_loop ⟨[], [2]⟩ [] [] []).2.2.1 (by decide)

/-- Claim C8: a regular node handling the k-th DISCOVERY request schedules
exactly one HELLO (after the jitter produced by the random source, which lies
in `[0, HELLO_TIMEOUT]`) precisely when this is its first request or the
request's payload lists its id; having responded before, it stays silent on a
request that does not list it. -/
theorem lab06_device_response_condition (devId : ℕ) (payloads : List (List ℕ))
    (k : ℕ) (jitter : ℚ) (hk : k < payloads.length)
    (hj : 0 ≤ jitter ∧ jitter ≤ Lab06.HELLO_TIMEOUT) :
    ((Lab06.RegularNode_on_discovery devId
          (Lab06.responded_after devId (payloads.take k))
          (payloads.getD k []) jitter).2 = some jitter
      ↔ (k = 0 ∨ devId ∈ payloads.getD k [])) ∧
    ((Lab06.RegularNode_on_discovery devId
          (Lab06.responded_after devId (payloads.take k))
          (payloads.getD k []) jitter).2 = none
      ↔ ¬(k = 0 ∨ devId ∈ payloads.getD k [])) := by
  cases k with
  | zero =>
      have hre : Lab06.responded_after devId (payloads.take 0) = false := rfl
      rw [hre]
      constructor
      · simp [Lab06.RegularNode_on_discovery]
      · simp [Lab06.RegularNode_on_discovery]
  | succ n =>
      have hne : payloads.take (n + 1) ≠ [] := by
        cases payloads with
        | nil => simp at hk
        | cons a as => simp [List.take]
      have hre : Lab06.responded_after devId (payloads.take (n + 1)) = true :=
        Lab06.responded_after_of_ne_nil devId _ hne
      rw [hre]
      generalize payloads.getD (n + 1) [] = pl
      by_cases hmem : devId ∈ pl <;>
        simp [Lab06.RegularNode_on_discovery, hmem]

/-- Concrete instance of `lab06_device_response_condition`: node 5, having
responded to the first round, responds to the second request because it is
listed there as missing. -/
theorem lab06_device_response_condition_witness :
    (Lab06.RegularNode_on_discovery 5
        (Lab06.responded_after 5 [[1, 2]]) [5, 9] (1 / 20)).2
      = some (1 / 20) :=
  ((lab06_device_response_condition 5 [[1, 2], [5, 9]] 1 (1 / 20) (by decide)
      (by norm_num [Lab06.HELLO_TIMEOUT])).1).mpr (by decide)
